import Mathlib

/-
Verification of the plugin lifecycle engine (cogs/plugins.py).

Python strings are modeled as explicit character lists (`Str`), fallible
operations return `Option`, and the pieces of ambient state the code touches
(the persisted plugin list, the loaded set, the on-disk directories, cache
files and extracted files) are threaded explicitly through the modeled
functions.  Collaborators outside the core (the HTTP client, the zip parser,
the pip subprocess, the extension loader) enter as explicit inputs describing
the single observation the code makes of them.
-/

set_option autoImplicit false

namespace Modmail

/-- Python strings, modeled as explicit character lists. -/
abbrev Str := List Char

/-- Python list.remove: drops the first occurrence of the element, and fails
(raising ValueError) when the element is absent. -/
def listRemove (x : Str) : List Str → Option (List Str)
  | [] => none
  | y :: ys => if y = x then some ys else (listRemove x ys).map (fun l => y :: l)

/-- First-match association lookup, modeling Python dict access. -/
def lookupA {κ ν : Type} [DecidableEq κ] : List (κ × ν) → κ → Option ν
  | [], _ => none
  | kv :: rest, k => if kv.1 = k then some kv.2 else lookupA rest k

/-- Association update: overwrite the binding for the key in place, or append
a fresh binding; models overwriting a file / dict entry keyed by the key. -/
def setAssoc {κ ν : Type} [DecidableEq κ] : List (κ × ν) → κ → ν → List (κ × ν)
  | [], k, v => [(k, v)]
  | kv :: rest, k, v => if kv.1 = k then (k, v) :: rest else kv :: setAssoc rest k v

/-- First result of the function over the list, in order; models the order in
which a backtracking regex engine tries candidate splits. -/
def firstSome {α β : Type} : List α → (α → Option β) → Option β
  | [], _ => none
  | a :: l, f =>
    match f a with
    | some b => some b
    | none => firstSome l f

/-- All ways to split a character list at an occurrence of the delimiter,
leftmost occurrence first.  A lazy regex group followed by the literal
delimiter tries exactly these candidates in exactly this order. -/
def splits (c : Char) : Str → List (Str × Str)
  | [] => []
  | x :: xs =>
    let rest := (splits c xs).map (fun pr => (x :: pr.1, pr.2))
    if x = c then ([], xs) :: rest else rest

/-- All decompositions of a list into a non-empty initial part plus the rest,
shortest part first; the candidates a trailing lazy group tries in order. -/
def properSplits : Str → List (Str × Str)
  | [] => []
  | x :: xs => ([x], xs) :: (properSplits xs).map (fun pr => (x :: pr.1, pr.2))

/-- Python str.split(sep, maxsplit=1) viewed through the 2-element unpacking
the source performs: the parts before and after the first occurrence of the
delimiter, or none when the delimiter is absent (one-element split result,
in which case the 2-element unpacking raises ValueError). -/
def splitOnce (c : Char) : Str → Option (Str × Str)
  | [] => none
  | x :: xs => if x = c then some ([], xs) else (splitOnce c xs).map (fun pr => (x :: pr.1, pr.2))

/-- The default branch string of Plugin.__init__. -/
def masterStr : Str := ['m', 'a', 's', 't', 'e', 'r']

/-- The literal textual payload the archive host returns for a missing repo. -/
def notFoundStr : Str := ['N', 'o', 't', ' ', 'F', 'o', 'u', 'n', 'd']

/-- The Plugin value class (plugins.py lines 33-86): owner account, source
repository, module name, branch. -/
structure Plugin where
  user : Str
  repo : Str
  name : Str
  branch : Str
deriving DecidableEq, Repr

/-- Plugin.__init__: the branch argument defaults to master when None. -/
def Plugin.make (user repo name : Str) (branch : Option Str) : Plugin :=
  { user := user, repo := repo, name := name, branch := branch.getD masterStr }

/-- Plugin.__str__: the canonical owner/repo/name@branch rendering, which is
the form persisted to configuration. -/
def Plugin.str (p : Plugin) : Str :=
  p.user ++ '/' :: p.repo ++ '/' :: p.name ++ '@' :: p.branch

/-- Plugin.__eq__: equality compares the canonical string forms (the
isinstance check always holds between two Plugin values). -/
def Plugin.eqb (p q : Plugin) : Bool := decide (Plugin.str p = Plugin.str q)

/-- Plugin.__hash__ hashes the component 4-tuple.  Python guarantees equal
hashes exactly for equal tuples, so the tuple itself is the faithful model of
what the hash is a function of. -/
def Plugin.hashKey (p : Plugin) : Str × Str × Str × Str :=
  (p.user, p.repo, p.name, p.branch)

/-- The tail (.+?)@(.+?)$ of the strict pattern of Plugin.from_string: the
lazy group stops at the leftmost '@' that leaves both sides non-empty. -/
def matchAtTail (u : Str) : Option (Str × Str) :=
  firstSome (splits '@' u) (fun pr => if pr.1 ≠ [] ∧ pr.2 ≠ [] then some pr else none)

/-- The strict pattern of Plugin.from_string (line 74), modeling the
backtracking search of the regex engine on the anchored pattern with three
lazy groups separated by literal delimiters. -/
def matchStrict (s : Str) : Option (Str × Str × Str × Str) :=
  firstSome (splits '/' s) (fun g1r =>
    if g1r.1 = [] then none else
    firstSome (splits '/' g1r.2) (fun g2r =>
      if g2r.1 = [] then none else
      (matchAtTail g2r.2).map (fun g34 => (g1r.1, g2r.1, g34.1, g34.2))))

/-- The tail (.+?)(?:@(.+?))?$ of the lenient pattern: the lazy name group
stops at the shortest non-empty part whose remainder is either empty or an
'@' followed by a non-empty branch. -/
def matchOptTail (u : Str) : Option (Str × Option Str) :=
  firstSome (properSplits u) (fun pr =>
    match pr.2 with
    | [] => some (pr.1, none)
    | v :: vs => if v = '@' ∧ vs ≠ [] then some (pr.1, some vs) else none)

/-- The lenient pattern of Plugin.from_string (line 72), branch optional. -/
def matchLenient (s : Str) : Option (Str × Str × Str × Option Str) :=
  firstSome (splits '/' s) (fun g1r =>
    if g1r.1 = [] then none else
    firstSome (splits '/' g1r.2) (fun g2r =>
      if g2r.1 = [] then none else
      (matchOptTail g2r.2).map (fun g34 => (g1r.1, g2r.1, g34.1, g34.2))))

/-- Plugin.from_string (lines 69-77): strict or lenient regex parse feeding
the matched groups to the constructor; none models InvalidPluginError. -/
def from_string (s : Str) (strict : Bool) : Option Plugin :=
  if strict then
    (matchStrict s).map (fun g => Plugin.make g.1 g.2.1 g.2.2.1 (some g.2.2.2))
  else
    (matchLenient s).map (fun g => Plugin.make g.1 g.2.1 g.2.2.1 g.2.2.2)

example : from_string ['a', '/', 'b', '/', 'c'] true = none := by decide

example : from_string ['a', '/', 'b', '/', 'c'] false =
    some { user := ['a'], repo := ['b'], name := ['c'], branch := masterStr } := by decide

example : from_string ['a', '/', 'b', '/', 'c', '@', 'd'] true =
    some { user := ['a'], repo := ['b'], name := ['c'], branch := ['d'] } := by decide

example : from_string ['a', '/', 'b', '/', 'c', '/', 'd', '@', 'e'] true =
    some { user := ['a'], repo := ['b'], name := ['c', '/', 'd'], branch := ['e'] } := by decide

/-- A zip archive entry as the extraction loop observes it: the path segments
of info.filename, whether it is a directory entry, and an identifier for the
entry's byte content (files are copied byte-for-byte). -/
structure ZipEntry where
  parts : List Str
  isDir : Bool
  content : Nat
deriving DecidableEq, Repr

/-- Archive bytes viewed through the only observation made of them: what
zipfile.ZipFile yields.  none models bytes that fail to parse as a zip. -/
abbrev Archive := Option (List ZipEntry)

/-- An HTTP response payload as download_plugin observes it: either it
decodes as text (resp.text() succeeds) or it is binary data (the decode
raises UnicodeDecodeError and the raw bytes are kept). -/
inductive RespPayload
  | text (t : Str)
  | binary (arch : Archive)
deriving DecidableEq

/-- The distinct failure causes of download_plugin. -/
inductive PluginError
  | pluginNotFound
  | invalidDownload
  | badZip
deriving DecidableEq, Repr

/-- Key of the extracted module directory plugins/user/repo/name-branch. -/
abbrev PKey := Str × Str × Str × Str

/-- Key of the cache file temp/plugins-cache/user-repo-branch.zip. -/
abbrev CKey := Str × Str × Str

/-- Address of an extracted file: module directory plus relative path. -/
structure FileKey where
  pkey : PKey
  rel : List Str
deriving DecidableEq, Repr

/-- The durable on-disk state download_plugin reads and writes: module root
directories, subdirectories and files created under them, and cache files. -/
structure FS where
  dirs : List PKey
  subdirs : List (PKey × List Str)
  files : List (FileKey × Nat)
  caches : List (CKey × Archive)
deriving DecidableEq, Repr

def dirKey (p : Plugin) : PKey := (p.user, p.repo, p.name, p.branch)

def cacheKey (p : Plugin) : CKey := (p.user, p.repo, p.branch)

/-- plugin.abs_path.mkdir(parents=True, exist_ok=True). -/
def addRootDir (fs : FS) (p : Plugin) : FS :=
  if dirKey p ∈ fs.dirs then fs else { fs with dirs := fs.dirs ++ [dirKey p] }

/-- Record one subdirectory of a module directory (mkdir with exist_ok). -/
def addSub (k : PKey) (fs : FS) (d : List Str) : FS :=
  if (k, d) ∈ fs.subdirs then fs else { fs with subdirs := fs.subdirs ++ [(k, d)] }

/-- The non-empty initial segments of a relative path, shortest first: the
chain of directories mkdir(parents=True) creates. -/
def ancestorsOf : List Str → List (List Str)
  | [] => []
  | x :: xs => [x] :: (ancestorsOf xs).map (fun l => x :: l)

/-- mkdir(parents=True, exist_ok=True) on a relative path inside a module
directory: create the directory and every ancestor. -/
def addSubParents (fs : FS) (k : PKey) (rel : List Str) : FS :=
  (ancestorsOf rel).foldl (addSub k) fs

/-- Write (or overwrite) one extracted file inside a module directory. -/
def setFileFS (fs : FS) (k : PKey) (rel : List Str) (v : Nat) : FS :=
  { fs with files := setAssoc fs.files { pkey := k, rel := rel } v }

/-- The entry filter of the extraction loop (line 193): at least 3 path
segments and the second segment equals the target module name. -/
def qualifies (name : Str) (e : ZipEntry) : Bool :=
  decide (3 ≤ e.parts.length ∧ e.parts.get? 1 = some name)

/-- One iteration of the extraction loop of download_plugin (lines 191-200):
a qualifying directory entry is recreated (with ancestors) at its path with
the first two segments stripped; a qualifying file entry gets its parent
directories created and its bytes copied; other entries do nothing. -/
def extractOne (p : Plugin) (fs : FS) (e : ZipEntry) : FS :=
  if qualifies p.name e then
    if e.isDir then addSubParents fs (dirKey p) (e.parts.drop 2)
    else
      setFileFS (addSubParents fs (dirKey p) ((e.parts.drop 2).dropLast)) (dirKey p)
        (e.parts.drop 2) e.content
  else fs

/-- The whole extraction loop over the archive's entries, in order. -/
def extractAll (fs : FS) (p : Plugin) (es : List ZipEntry) : FS :=
  es.foldl (extractOne p) fs

/-- Observable outcome of one download_plugin call: the resulting on-disk
state, the failure cause if any, and whether a network fetch occurred. -/
structure DLOut where
  fs : FS
  error : Option PluginError
  fetched : Bool
deriving DecidableEq, Repr

/-- Persist fetched bytes to the plugin's cache file (lines 184-188). -/
def writeCache (fs : FS) (p : Plugin) (arch : Archive) : FS :=
  { fs with caches := setAssoc fs.caches (cacheKey p) arch }

/-- Open the obtained bytes as a zip and run the extraction loop (lines
190-202); a zip parse failure propagates (BadZipFile). -/
def extractPhase (fs : FS) (p : Plugin) (arch : Archive) (fetched : Bool) : DLOut :=
  match arch with
  | none => { fs := fs, error := some PluginError.badZip, fetched := fetched }
  | some es => { fs := extractAll fs p es, error := none, fetched := fetched }

/-- The network branch of download_plugin (lines 163-188): fetch the archive
URL; a payload that decodes as text is rejected before anything is cached
(the literal Not Found payload as PluginNotFound, any other text as
InvalidDownload); binary bytes are persisted to the cache file and passed on
to extraction. -/
def fetchPhase (fs : FS) (p : Plugin) (resp : RespPayload) : DLOut :=
  match resp with
  | RespPayload.text t =>
    if t = notFoundStr then { fs := fs, error := some PluginError.pluginNotFound, fetched := true }
    else { fs := fs, error := some PluginError.invalidDownload, fetched := true }
  | RespPayload.binary arch => extractPhase (writeCache fs p arch) p arch true

/-- Plugins.download_plugin (lines 154-202): return immediately when the
module directory exists and force is false; otherwise create the module
directory, then obtain bytes from the cache file (when present and not
forced) or from the network, and extract. -/
def download_plugin (fs : FS) (p : Plugin) (force : Bool) (resp : RespPayload) : DLOut :=
  if dirKey p ∈ fs.dirs ∧ force = false then { fs := fs, error := none, fetched := false }
  else
    let fs1 := addRootDir fs p
    match (if force = false then lookupA fs1.caches (cacheKey p) else none) with
    | some arch => extractPhase fs1 p arch false
    | none => fetchPhase fs1 p resp

/-- The distinct outcomes of Plugins.load_plugin. -/
inductive LoadResult
  | entryPointMissing
  | depInstallFailed (stderr : Str)
  | extensionInvalid
  | loadedOk
deriving DecidableEq, Repr

/-- Plugins.load_plugin (lines 204-247): require the entry-point file, then,
when a requirements manifest exists, run the pip subprocess and fail iff the
captured stderr stream is non-empty (the subprocess return code is accepted
as a parameter here because the source never reads it), then load the
extension.  stdout is likewise only debug-logged. -/
def load_plugin (entryExists reqExists : Bool) (stdout stderr : Str) (exitCode : Nat)
    (extensionOk : Bool) : LoadResult :=
  if entryExists = false then LoadResult.entryPointMissing
  else if reqExists then
    if stderr ≠ [] then LoadResult.depInstallFailed stderr
    else if extensionOk then LoadResult.loadedOk else LoadResult.extensionInvalid
  else if extensionOk then LoadResult.loadedOk else LoadResult.extensionInvalid

/-- A registry descriptor: optional fields of the JSON object for one short
plugin name ("repository", "branch", "bot_version"). -/
structure Descriptor where
  repository : Option Str
  branch : Option Str
  bot_version : Option Str
deriving DecidableEq, Repr

/-- The distinct ways Plugins.parse_user_input can come back to its caller,
including the two uncaught Python exceptions the code can raise. -/
inductive UserInputResult
  | nameErrorEm
  | stillLoading
  | versionTooLow (v : Str)
  | invalidName
  | resolved (p : Plugin)
  | keyError
  | valueError
deriving DecidableEq, Repr

/-- Plugins.parse_user_input (lines 249-298).  When plugins are disabled the
disabled-notice branch references the undefined name em (line 256) and so
raises NameError instead of sending the notice; when not yet ready the
transient still-loading notice is sent; a registry hit reads the repository
field (KeyError when absent), unpacks its split on the first slash
(ValueError when the field has no slash), optionally applies the version
gate through the supplied comparison oracle modeling
bot.version < parse_version(v), and otherwise falls back to lenient
identifier parsing. -/
def parse_user_input (enable_plugins ready : Bool) (registry : List (Str × Descriptor))
    (check_version : Bool) (verTooLow : Str → Bool) (plugin_name : Str) : UserInputResult :=
  if enable_plugins = false then UserInputResult.nameErrorEm
  else if ready = false then UserInputResult.stillLoading
  else
    match lookupA registry plugin_name with
    | some details =>
      match details.repository with
      | none => UserInputResult.keyError
      | some repoField =>
        match splitOnce '/' repoField with
        | none => UserInputResult.valueError
        | some ur =>
          match (if check_version then details.bot_version else none) with
          | some v =>
            if v ≠ [] ∧ verTooLow v then UserInputResult.versionTooLow v
            else UserInputResult.resolved (Plugin.make ur.1 ur.2 plugin_name details.branch)
          | none => UserInputResult.resolved (Plugin.make ur.1 ur.2 plugin_name details.branch)
    | none =>
      match from_string plugin_name false with
      | some p => UserInputResult.resolved p
      | none => UserInputResult.invalidName

/-- The state initial_load_plugins reads and mutates: the persisted plugin
string list, the loaded set, the readiness flag, how many times the persisted
configuration was flushed, and whether the task died on an uncaught
exception. -/
structure BatchState where
  plugins : List Str
  loaded : List Plugin
  ready : Bool
  updates : Nat
  aborted : Bool
deriving DecidableEq, Repr

/-- Python set add under the structural (hash-compatible) notion of sameness:
two Plugins land in the same hash bucket exactly when their component tuples
agree. -/
def addLoaded (l : List Plugin) (p : Plugin) : List Plugin :=
  if p ∈ l then l else l ++ [p]

/-- Lines 135-145 of initial_load_plugins: attempt download+load (outcome
given by the oracle ok); on failure remove the ORIGINAL configured string
from the persisted list — an absent string makes list.remove raise
ValueError, which is uncaught inside the except handler and kills the task
(modeled by the aborted flag). -/
def tryLoad (ok : Plugin → Bool) (st : BatchState) (origName : Str) (p : Plugin) : BatchState :=
  if ok p then { st with loaded := addLoaded st.loaded p }
  else
    match listRemove origName st.plugins with
    | some l => { st with plugins := l }
    | none => { st with aborted := true }

/-- One iteration of the loop of initial_load_plugins (lines 120-145):
strict parse; on failure remove the entry and retry leniently, appending the
canonical form on a successful legacy migration; then download+load with the
per-plugin failure handling of tryLoad. -/
def stepPlugin (ok : Plugin → Bool) (st : BatchState) (plugin_name : Str) : BatchState :=
  match from_string plugin_name true with
  | some p => tryLoad ok st plugin_name p
  | none =>
    match listRemove plugin_name st.plugins with
    | none => { st with aborted := true }
    | some l =>
      let st1 := { st with plugins := l }
      match from_string plugin_name false with
      | none => st1
      | some p =>
        let st2 := { st1 with plugins := st1.plugins ++ [Plugin.str p] }
        tryLoad ok st2 plugin_name p

/-- Plugins.initial_load_plugins (lines 117-152): iterate over a snapshot of
the configured list; an uncaught exception in an iteration kills the task
before later iterations, skipping the readiness flag and the single
configuration flush that otherwise follow the loop. -/
def initial_load_plugins (ok : Plugin → Bool) (st : BatchState) : BatchState :=
  let final := st.plugins.foldl (fun s n => if s.aborted then s else stepPlugin ok s n) st
  if final.aborted then final
  else { final with ready := true, updates := final.updates + 1 }

/-- A legacy-form configured identifier a/b/c, without a branch. -/
def legacyName : Str := ['a', '/', 'b', '/', 'c']

/-- The canonical form the migration rewrites legacyName to. -/
def canonName : Str := legacyName ++ '@' :: masterStr

/-- Batch state at process start with a single legacy-form configured entry. -/
def stLegacy : BatchState :=
  { plugins := [legacyName], loaded := [], ready := false, updates := 0, aborted := false }

/-- C1: refuted on the code.  With one configured legacy-form identifier
a/b/c whose download/load step fails, the migration first removes a/b/c and
appends a/b/c@master; the failure handler then calls remove on the original
string a/b/c, which is no longer present, so list.remove raises ValueError
inside the except handler: the task dies, the canonical identifier stays in
the persisted list, the readiness flag is never set and the configuration is
never flushed — contradicting removal-and-continue, the single readiness
set, and the single flush. -/
theorem c1_batch_abort_eval :
    initial_load_plugins (fun _ => false) stLegacy =
      { plugins := [canonName], loaded := [], ready := false, updates := 0, aborted := true } := by
  decide

/-- C2 counterexample: the dependency-install step of load_plugin never
consults the installer's exit status.  A pip run exiting 0 with a non-empty
captured stderr is reported as a dependency-install failure, and a pip run
exiting 7 with empty stderr is treated as success — both contradicting the
claimed fails-iff-nonzero-exit criterion. -/
theorem c2_counterexample :
    load_plugin true true [] ['w'] 0 true = LoadResult.depInstallFailed ['w'] ∧
    load_plugin true true [] [] 7 true = LoadResult.loadedOk := by decide

/-- C2 amended: with the entry-point present, the dependency-install step
fails with DependencyInstallFailed carrying the captured stderr if and only
if a requirements manifest exists and the captured stderr stream is
non-empty (the exit status is never consulted); without a manifest the step
is a no-op success, its outcome independent of any installer streams or exit
status. -/
theorem c2_stderr_criterion (reqExists : Bool) (stdout stderr : Str) (exitCode : Nat)
    (extensionOk : Bool) :
    (load_plugin true reqExists stdout stderr exitCode extensionOk =
        LoadResult.depInstallFailed stderr ↔ reqExists = true ∧ stderr ≠ []) ∧
    load_plugin true false stdout stderr exitCode extensionOk =
      load_plugin true false [] [] 0 extensionOk := by
  cases reqExists <;> cases extensionOk <;> cases stderr <;> simp [load_plugin]

/-- Witness for c2_stderr_criterion at a concrete input: manifest present,
stderr non-empty, exit code 0. -/
theorem c2_stderr_criterion_witness :
    load_plugin true true ['o'] ['w'] 0 true = LoadResult.depInstallFailed ['w'] :=
  (c2_stderr_criterion true ['o'] ['w'] 0 true).1.mpr (by decide)

/-- C6: refuted on the code.  With plugins disabled, parse_user_input builds
the disabled notice into the variable embed but then sends the undefined
name em (line 256), raising NameError: the caller gets an uncaught exception
rather than the permanent disabled outcome.  The transient still-loading
outcome when enabled but not ready is produced as claimed. -/
theorem c6_gate_eval :
    parse_user_input false true [] false (fun _ => false) ['x'] =
        UserInputResult.nameErrorEm ∧
    parse_user_input true false [] false (fun _ => false) ['x'] =
        UserInputResult.stillLoading := by decide

/-- A registry snapshot whose descriptor has a repository field without a
slash. -/
def regNoSlash : List (Str × Descriptor) :=
  [(['x'], { repository := some ['a', 'b'], branch := none, bot_version := none })]

/-- A registry snapshot whose descriptor lacks the repository field. -/
def regNoRepo : List (Str × Descriptor) :=
  [(['x'], { repository := none, branch := none, bot_version := none })]

/-- C10: with the feature enabled and the readiness flag set, resolving a
registry short name whose descriptor has a slashless repository field raises
an uncaught unpacking ValueError, and one lacking the repository field an
uncaught KeyError — neither a PluginRef nor any outcome of the documented
error taxonomy. -/
theorem c10_registry_crash_eval :
    parse_user_input true true regNoSlash false (fun _ => false) ['x'] =
        UserInputResult.valueError ∧
    parse_user_input true true regNoRepo false (fun _ => false) ['x'] =
        UserInputResult.keyError := by decide

/-- A strict-form string a/b/c/d@e whose lazy strict parse puts the
embedded slash into the name group. -/
def sSlashy : Str := ['a', '/', 'b', '/', 'c', '/', 'd', '@', 'e']

/-- The ref obtained by parsing sSlashy strictly. -/
def pParsed : Plugin :=
  { user := ['a'], repo := ['b'], name := ['c', '/', 'd'], branch := ['e'] }

/-- The ref obtained from a registry descriptor with repository a/b/c and
branch e under the short name d (split on the FIRST slash only). -/
def pRegistry : Plugin :=
  { user := ['a'], repo := ['b', '/', 'c'], name := ['d'], branch := ['e'] }

/-- The registry snapshot producing pRegistry for short name d. -/
def regSlashy : List (Str × Descriptor) :=
  [(['d'],
    { repository := some ['a', '/', 'b', '/', 'c'], branch := some ['e'], bot_version := none })]

/-- C5 counterexample: one ref parsed from a string and one built from a
registry descriptor render to the same canonical string a/b/c/d@e and hence
compare equal, yet their component 4-tuples — the input of __hash__ —
differ, so equal hashes are not guaranteed. -/
theorem c5_counterexample :
    from_string sSlashy true = some pParsed ∧
    parse_user_input true true regSlashy false (fun _ => false) ['d'] =
        UserInputResult.resolved pRegistry ∧
    Plugin.eqb pParsed pRegistry = true ∧
    Plugin.hashKey pParsed ≠ Plugin.hashKey pRegistry := by decide

/-- C5 amended: two refs compare equal iff their canonical string forms
match; the hash is computed from the component 4-tuple, so identical
component tuples guarantee both identical hashes and equality, but
string-equal refs whose components split differently (a delimiter embedded
in a component) need not hash identically. -/
theorem c5_eq_iff_canonical (p q : Plugin) :
    (Plugin.eqb p q = true ↔ Plugin.str p = Plugin.str q) ∧
    (Plugin.hashKey p = Plugin.hashKey q → Plugin.eqb p q = true) := by
  constructor
  · simp [Plugin.eqb]
  · intro h
    have h1 : p.user = q.user := congrArg (fun t => t.1) h
    have h2 : p.repo = q.repo := congrArg (fun t => t.2.1) h
    have h3 : p.name = q.name := congrArg (fun t => t.2.2.1) h
    have h4 : p.branch = q.branch := congrArg (fun t => t.2.2.2) h
    simp [Plugin.eqb, Plugin.str, h1, h2, h3, h4]

/-- Witness for c5_eq_iff_canonical: two component-identical refs compare
equal. -/
theorem c5_eq_iff_canonical_witness : Plugin.eqb pParsed pParsed = true :=
  (c5_eq_iff_canonical pParsed pParsed).2 rfl

theorem caches_addRootDir (fs : FS) (p : Plugin) : (addRootDir fs p).caches = fs.caches := by
  unfold addRootDir
  split <;> rfl

theorem lookupA_setAssoc_self {κ ν : Type} [DecidableEq κ] (l : List (κ × ν)) (k : κ) (v : ν) :
    lookupA (setAssoc l k v) k = some v := by
  induction l with
  | nil => simp [setAssoc, lookupA]
  | cons kv rest ih =>
    by_cases h : kv.1 = k
    · simp [setAssoc, lookupA, h]
    · simp [setAssoc, lookupA, h, ih]

theorem dirs_addSub (k : PKey) (fs : FS) (d : List Str) : (addSub k fs d).dirs = fs.dirs := by
  unfold addSub
  split <;> rfl

theorem dirs_addSubParents (fs : FS) (k : PKey) (rel : List Str) :
    (addSubParents fs k rel).dirs = fs.dirs := by
  unfold addSubParents
  generalize ancestorsOf rel = l
  induction l generalizing fs with
  | nil => rfl
  | cons a l ih => simp [List.foldl, ih, dirs_addSub]

theorem dirs_extractOne (p : Plugin) (fs : FS) (e : ZipEntry) :
    (extractOne p fs e).dirs = fs.dirs := by
  unfold extractOne
  split
  · split
    · exact dirs_addSubParents fs (dirKey p) (e.parts.drop 2)
    · simp [setFileFS, dirs_addSubParents]
  · rfl

theorem dirs_extractAll (fs : FS) (p : Plugin) (es : List ZipEntry) :
    (extractAll fs p es).dirs = fs.dirs := by
  unfold extractAll
  induction es generalizing fs with
  | nil => rfl
  | cons e es ih => simp [List.foldl, ih, dirs_extractOne]

theorem dirs_extractPhase (fs : FS) (p : Plugin) (arch : Archive) (b : Bool) :
    (extractPhase fs p arch b).fs.dirs = fs.dirs := by
  cases arch <;> simp [extractPhase, dirs_extractAll]

theorem dirs_fetchPhase (fs : FS) (p : Plugin) (resp : RespPayload) :
    (fetchPhase fs p resp).fs.dirs = fs.dirs := by
  cases resp with
  | text t =>
    simp only [fetchPhase]
    split <;> rfl
  | binary arch => simp [fetchPhase, dirs_extractPhase, writeCache]

theorem mem_dirs_addRootDir (fs : FS) (p : Plugin) : dirKey p ∈ (addRootDir fs p).dirs := by
  unfold addRootDir
  split
  · assumption
  · simp

/-- When the module directory already exists and force is false,
download_plugin is the identity: no error, no fetch, no state change. -/
theorem download_plugin_short (fs : FS) (p : Plugin) (resp : RespPayload)
    (h : dirKey p ∈ fs.dirs) :
    download_plugin fs p false resp = { fs := fs, error := none, fetched := false } := by
  unfold download_plugin
  rw [if_pos (by exact ⟨h, rfl⟩)]

/-- Any download_plugin call that gets past the existence check leaves the
directory set equal to that after the initial mkdir. -/
theorem dirs_download_plugin (fs : FS) (p : Plugin) (resp : RespPayload)
    (h : ¬ dirKey p ∈ fs.dirs) :
    (download_plugin fs p false resp).fs.dirs = (addRootDir fs p).dirs := by
  unfold download_plugin
  rw [if_neg (by simp [h])]
  rcases hx : lookupA (addRootDir fs p).caches (cacheKey p) with _ | arch <;>
    simp [hx, dirs_extractPhase, dirs_fetchPhase]

/-- After any download_plugin call with force false, the module directory
exists. -/
theorem mem_dirs_after_download (fs : FS) (p : Plugin) (resp : RespPayload) :
    dirKey p ∈ (download_plugin fs p false resp).fs.dirs := by
  by_cases h : dirKey p ∈ fs.dirs
  · rw [download_plugin_short fs p resp h]
    exact h
  · rw [dirs_download_plugin fs p resp h]
    exact mem_dirs_addRootDir fs p

/-- Empty on-disk state: nothing materialized, nothing cached. -/
def fsEmpty : FS := { dirs := [], subdirs := [], files := [], caches := [] }

/-- A concrete plugin ref used to instantiate the download theorems. -/
def p0 : Plugin := { user := ['u'], repo := ['r'], name := ['n'], branch := ['m'] }

/-- A download_plugin call that finds neither the module directory nor a
cache entry proceeds to the network fetch after the initial mkdir. -/
theorem download_plugin_fetch (fs : FS) (p : Plugin) (resp : RespPayload)
    (hd : ¬ dirKey p ∈ fs.dirs) (hc : lookupA fs.caches (cacheKey p) = none) :
    download_plugin fs p false resp = fetchPhase (addRootDir fs p) p resp := by
  unfold download_plugin
  rw [if_neg (by simp [hd])]
  have hc1 : lookupA (addRootDir fs p).caches (cacheKey p) = none := by
    rw [caches_addRootDir]
    exact hc
  simp [hc1]

/-- C3: for a response obtained by an actual fetch (no directory, no cache),
a payload decoding to the literal text Not Found fails with PluginNotFound,
any other decodable text fails with InvalidDownload — in both cases nothing
beyond the initial mkdir happens, in particular nothing is cached — and only
a binary payload is persisted to the cache file and passed on to the
extraction phase. -/
theorem c3_response_trichotomy (fs : FS) (p : Plugin) (t : Str) (arch : Archive)
    (hd : ¬ dirKey p ∈ fs.dirs) (hc : lookupA fs.caches (cacheKey p) = none) :
    download_plugin fs p false (RespPayload.text t) =
      { fs := addRootDir fs p,
        error := some (if t = notFoundStr then PluginError.pluginNotFound
          else PluginError.invalidDownload),
        fetched := true } ∧
    download_plugin fs p false (RespPayload.binary arch) =
      extractPhase (writeCache (addRootDir fs p) p arch) p arch true ∧
    lookupA (writeCache (addRootDir fs p) p arch).caches (cacheKey p) = some arch := by
  refine ⟨?_, ?_, ?_⟩
  · rw [download_plugin_fetch fs p _ hd hc]
    by_cases ht : t = notFoundStr <;> simp [fetchPhase, ht]
  · rw [download_plugin_fetch fs p _ hd hc]
    rfl
  · simp [writeCache, lookupA_setAssoc_self]

/-- Witness for c3_response_trichotomy: on empty state, the literal Not
Found text payload fails with PluginNotFound. -/
theorem c3_response_trichotomy_witness :
    download_plugin fsEmpty p0 false (RespPayload.text notFoundStr) =
      { fs := addRootDir fsEmpty p0, error := some PluginError.pluginNotFound,
        fetched := true } := by
  have h := (c3_response_trichotomy fsEmpty p0 notFoundStr none (by decide) rfl).1
  simpa using h

/-- C4 counterexample: materializing on empty disk state against a textual
Not Found response fails with PluginNotFound, yet a second materialize with
force false on the resulting state succeeds immediately with no fetch and no
state change — the directory created before the fetch is treated as already
materialized, contradicting the claim that no failure path leaves such a
directory behind. -/
theorem c4_counterexample :
    (download_plugin fsEmpty p0 false (RespPayload.text notFoundStr)).error =
        some PluginError.pluginNotFound ∧
    download_plugin (download_plugin fsEmpty p0 false (RespPayload.text notFoundStr)).fs p0 false
        (RespPayload.text notFoundStr) =
      { fs := (download_plugin fsEmpty p0 false (RespPayload.text notFoundStr)).fs,
        error := none, fetched := false } := by decide

/-- C4 amended: the module directory is created before fetching, so every
failure of materialize with force false leaves the directory existing
(possibly empty or partially populated), and a later materialize with force
false treats it as already materialized, returning success immediately with
no fetch and no change. -/
theorem c4_failure_leaves_dir (fs : FS) (p : Plugin) (resp resp2 : RespPayload)
    (e : PluginError) (h : (download_plugin fs p false resp).error = some e) :
    dirKey p ∈ (download_plugin fs p false resp).fs.dirs ∧
    download_plugin (download_plugin fs p false resp).fs p false resp2 =
      { fs := (download_plugin fs p false resp).fs, error := none, fetched := false } :=
  ⟨mem_dirs_after_download fs p resp,
    download_plugin_short _ p resp2 (mem_dirs_after_download fs p resp)⟩

/-- Witness for c4_failure_leaves_dir: an invalid textual download on empty
state leaves the module directory existing. -/
theorem c4_failure_leaves_dir_witness :
    dirKey p0 ∈ (download_plugin fsEmpty p0 false (RespPayload.text ['z'])).fs.dirs :=
  (c4_failure_leaves_dir fsEmpty p0 (RespPayload.text ['z']) (RespPayload.text ['z'])
    PluginError.invalidDownload (by decide)).1

/-- C7: after a successful materialize with force false, a second
materialize with force false performs no network fetch and returns with the
on-disk state unchanged: nothing beyond the directory-existence check
happens. -/
theorem c7_idempotent (fs : FS) (p : Plugin) (resp resp2 : RespPayload)
    (h : (download_plugin fs p false resp).error = none) :
    download_plugin (download_plugin fs p false resp).fs p false resp2
      = { fs := (download_plugin fs p false resp).fs, error := none, fetched := false } :=
  download_plugin_short _ p resp2 (mem_dirs_after_download fs p resp)

/-- Witness for c7_idempotent: a successful binary materialize on empty
state followed by a second call that makes no fetch and changes nothing. -/
theorem c7_idempotent_witness :
    download_plugin (download_plugin fsEmpty p0 false (RespPayload.binary (some []))).fs p0 false
        (RespPayload.text notFoundStr)
      = { fs := (download_plugin fsEmpty p0 false (RespPayload.binary (some []))).fs,
          error := none, fetched := false } :=
  c7_idempotent fsEmpty p0 (RespPayload.binary (some [])) (RespPayload.text notFoundStr)
    (by decide)

theorem extractAll_filter (p : Plugin) (es : List ZipEntry) :
    ∀ fs : FS, extractAll fs p es = extractAll fs p (es.filter (fun e => qualifies p.name e)) := by
  induction es with
  | nil =>
    intro fs
    rfl
  | cons e es ih =>
    intro fs
    by_cases hq : qualifies p.name e
    · simp only [extractAll, List.foldl_cons, List.filter_cons, hq, if_pos]
      exact ih (extractOne p fs e)
    · have he : extractOne p fs e = fs := by
        simp only [Bool.not_eq_true] at hq
        simp [extractOne, hq]
      simp only [extractAll, List.foldl_cons, List.filter_cons, he]
      simp only [Bool.not_eq_true] at hq
      simp only [hq, Bool.false_eq_true, if_false]
      exact ih fs

/-- C9: extraction recreates under the module directory exactly the
qualifying entries — those with at least 3 path segments whose second
segment is the module name — with the first two segments stripped: dropping
all non-qualifying entries leaves the result unchanged, a non-qualifying
entry alone creates nothing, a qualifying directory entry creates exactly
the stripped directory with its ancestors, and a qualifying file entry
creates exactly its parent chain plus the stripped file with the entry's
bytes. -/
theorem c9_extraction_scope (p : Plugin) (fs : FS) (es : List ZipEntry) :
    extractAll fs p es = extractAll fs p (es.filter (fun e => qualifies p.name e)) ∧
    (∀ e : ZipEntry, qualifies p.name e = false → extractOne p fs e = fs) ∧
    (∀ e : ZipEntry, qualifies p.name e = true → e.isDir = true →
      extractOne p fs e = addSubParents fs (dirKey p) (e.parts.drop 2)) ∧
    (∀ e : ZipEntry, qualifies p.name e = true → e.isDir = false →
      extractOne p fs e =
        setFileFS (addSubParents fs (dirKey p) ((e.parts.drop 2).dropLast)) (dirKey p)
          (e.parts.drop 2) e.content) := by
  refine ⟨extractAll_filter p es fs, ?_, ?_, ?_⟩
  · intro e hq
    simp [extractOne, hq]
  · intro e hq hdir
    simp [extractOne, hq, hdir]
  · intro e hq hfile
    simp [extractOne, hq, hfile]

/-- An archive entry of a sibling module pluginX inside the same repo. -/
def eSibling : ZipEntry := { parts := [['r'], ['x'], ['f']], isDir := false, content := 5 }

/-- Witness for c9_extraction_scope: the sibling-module entry creates
nothing. -/
theorem c9_extraction_scope_witness : extractOne p0 fsEmpty eSibling = fsEmpty :=
  (c9_extraction_scope p0 fsEmpty []).2.1 eSibling (by decide)

theorem splits_of_not_mem (c : Char) (xs : Str) (h : ¬ c ∈ xs) : splits c xs = [] := by
  induction xs with
  | nil => rfl
  | cons a as ih =>
    have hac : ¬ a = c := by
      intro e
      exact h (by simp [e])
    have has : ¬ c ∈ as := fun m => h (List.mem_cons_of_mem _ m)
    simp [splits, hac, ih has]

theorem splits_append (c : Char) (xs ys : Str) (h : ¬ c ∈ xs) :
    splits c (xs ++ c :: ys) =
      (xs, ys) :: (splits c ys).map (fun pr => (xs ++ c :: pr.1, pr.2)) := by
  induction xs with
  | nil => simp [splits]
  | cons a as ih =>
    have hac : ¬ a = c := by
      intro e
      exact h (by simp [e])
    have has : ¬ c ∈ as := fun m => h (List.mem_cons_of_mem _ m)
    simp [splits, hac, ih has, List.map_map, Function.comp]

theorem matchAtTail_eq (n b : Str) (hn : n ≠ []) (hb : b ≠ []) (hna : ¬ '@' ∈ n) :
    matchAtTail (n ++ '@' :: b) = some (n, b) := by
  unfold matchAtTail
  rw [splits_append _ _ _ hna]
  simp [firstSome, hn, hb]

theorem matchStrict_eq (o r n b : Str) (ho : o ≠ []) (hr : r ≠ []) (hn : n ≠ []) (hb : b ≠ [])
    (hos : ¬ '/' ∈ o) (hrs : ¬ '/' ∈ r) (hna : ¬ '@' ∈ n) :
    matchStrict (o ++ '/' :: (r ++ '/' :: (n ++ '@' :: b))) = some (o, r, n, b) := by
  unfold matchStrict
  simp only [splits_append _ _ _ hos, splits_append _ _ _ hrs,
    matchAtTail_eq n b hn hb hna, firstSome, ho, hr]
  simp [firstSome, ho, hr, matchAtTail_eq n b hn hb hna]

/-- A well-formed identifier segment: non-empty and free of both
delimiters. -/
def segOk (l : Str) : Prop := l ≠ [] ∧ ¬ '/' ∈ l ∧ ¬ '@' ∈ l

instance (l : Str) : Decidable (segOk l) := by
  unfold segOk
  infer_instance

/-- C8: for every strict-form string owner/repo/name@branch built from four
non-empty delimiter-free segments, strict parsing succeeds with exactly
those segments as components, and rendering the ref back to its canonical
string yields exactly the input. -/
theorem c8_strict_roundtrip (o r n b : Str)
    (ho : segOk o) (hr : segOk r) (hn : segOk n) (hb : segOk b) :
    from_string (o ++ '/' :: (r ++ '/' :: (n ++ '@' :: b))) true =
        some { user := o, repo := r, name := n, branch := b } ∧
    Plugin.str { user := o, repo := r, name := n, branch := b } =
      o ++ '/' :: (r ++ '/' :: (n ++ '@' :: b)) := by
  constructor
  · simp [from_string,
      matchStrict_eq o r n b ho.1 hr.1 hn.1 hb.1 ho.2.1 hr.2.1 hn.2.2, Plugin.make]
  · simp [Plugin.str]

/-- Witness for c8_strict_roundtrip at the concrete input a/b/c@d. -/
theorem c8_strict_roundtrip_witness :
    from_string (['a'] ++ '/' :: (['b'] ++ '/' :: (['c'] ++ '@' :: ['d']))) true =
        some { user := ['a'], repo := ['b'], name := ['c'], branch := ['d'] } :=
  (c8_strict_roundtrip ['a'] ['b'] ['c'] ['d']
    (by decide) (by decide) (by decide) (by decide)).1

end Modmail
